import Mathlib

/-!
Verification development for the GPT inspection/repair tools.

The repository contains four Go programs sharing one data model:
  - all_gpt_info.go              : inspection/reporting (header + entry array + CRCs)
  - replace_main_gpt_header_with_backup_gpt_header.go        (variant 1, "v1")
  - replace_main_gpt_header_with_backup_gpt_header_v2_...go  (variant 2, "v2")
  - unnamed/part_000             : inspection (header + table CRC recomputation)

This file gives a shallow embedding of the pure core of those programs:
64-bit machine arithmetic (Nat with explicit reduction modulo 2^64),
CRC-32 (the IEEE/ISO-HDLC variant used by Go hash/crc32.ChecksumIEEE),
the header/entry codecs, the relocation loop, geometry computation,
backup-header derivation, and the write traces of the two repair variants.
-/

set_option maxRecDepth 1000000
set_option maxHeartbeats 1000000

namespace GPTRepair

/-- 2^64, the modulus of Go uint64 arithmetic. -/
def M : Nat := 18446744073709551616

theorem M_eq : M = 2 ^ 64 := by decide

/-- Go uint64 addition: wraps modulo 2^64. -/
def uadd (a b : Nat) : Nat := (a + b) % M

/-- Go uint64 subtraction: wraps modulo 2^64. -/
def usub (a b : Nat) : Nat := (a % M + (M - b % M)) % M

theorem uadd_lt (a b : Nat) : uadd a b < M := Nat.mod_lt _ (by decide)

theorem usub_lt (a b : Nat) : usub a b < M := Nat.mod_lt _ (by decide)

/-- Plain subtraction agrees with wrapping subtraction when no underflow occurs. -/
theorem usub_eq_sub (a b : Nat) (hb : b ≤ a) (ha : a < M) : usub a b = a - b := by
  unfold usub
  rw [Nat.mod_eq_of_lt ha, Nat.mod_eq_of_lt (lt_of_le_of_lt hb ha)]
  have h1 : a + (M - b) = (a - b) + M := by omega
  rw [h1, Nat.add_mod_right, Nat.mod_eq_of_lt (by omega)]

/-- Plain addition agrees with wrapping addition when no overflow occurs. -/
theorem uadd_eq_add (a b : Nat) (h : a + b < M) : uadd a b = a + b :=
  Nat.mod_eq_of_lt h

/-! ## CRC-32 (ISO-HDLC / IEEE), as computed by Go hash/crc32.ChecksumIEEE -/

/-- One bit step of the reflected CRC-32 with polynomial 0xEDB88320. -/
def crcRound (c : Nat) : Nat :=
  if c % 2 = 1 then Nat.xor (c / 2) 0xEDB88320 else c / 2

/-- Absorb one byte into the CRC state (xor in the byte, then 8 bit steps). -/
def crcByte (c b : Nat) : Nat :=
  crcRound (crcRound (crcRound (crcRound
    (crcRound (crcRound (crcRound (crcRound (Nat.xor c (b % 256)))))))))

/-- CRC-32 of a byte sequence: initial value 0xFFFFFFFF, final xor 0xFFFFFFFF.
This is the checksum Go crc32.ChecksumIEEE computes. -/
def crc32 (bs : List Nat) : Nat :=
  Nat.xor (bs.foldl crcByte 0xFFFFFFFF) 0xFFFFFFFF

/-- Standard check vector: CRC-32 of the ASCII bytes of the digits 1..9. -/
theorem crc32_check_vector :
    crc32 [49, 50, 51, 52, 53, 54, 55, 56, 57] = 0xCBF43926 := by decide

/-- Evaluation helper for the CRC fold: identical to the foldl, but the state
is pattern matched at each step so that kernel reduction keeps it a literal. -/
def crcBytesF : Nat → List Nat → Nat
  | c, [] => c
  | c, b :: bs =>
    match crcByte c b with
    | 0 => crcBytesF 0 bs
    | Nat.succ m => crcBytesF (Nat.succ m) bs

theorem crcBytesF_eq (bs : List Nat) : ∀ c, crcBytesF c bs = bs.foldl crcByte c := by
  induction bs with
  | nil => intro c; rfl
  | cons b bs ih =>
    intro c
    rw [List.foldl_cons, ← ih (crcByte c b)]
    show (match crcByte c b with
          | 0 => crcBytesF 0 bs
          | Nat.succ m => crcBytesF (Nat.succ m) bs) = crcBytesF (crcByte c b) bs
    cases crcByte c b with
    | zero => rfl
    | succ m => rfl

theorem crc_foldl_split (s m n : Nat) :
    (List.replicate (m + n) (0 : Nat)).foldl crcByte s
      = (List.replicate n (0 : Nat)).foldl crcByte ((List.replicate m (0 : Nat)).foldl crcByte s) := by
  rw [List.replicate_add, List.foldl_append]

theorem crcZeroChunk1 :
    (List.replicate 2048 (0 : Nat)).foldl crcByte 4294967295 = 236406113 :=
  (crcBytesF_eq _ _).symm.trans (by decide)

theorem crcZeroChunk2 :
    (List.replicate 2048 (0 : Nat)).foldl crcByte 236406113 = 954466286 :=
  (crcBytesF_eq _ _).symm.trans (by decide)

theorem crcZeroChunk3 :
    (List.replicate 2048 (0 : Nat)).foldl crcByte 954466286 = 889273536 :=
  (crcBytesF_eq _ _).symm.trans (by decide)

theorem crcZeroChunk4 :
    (List.replicate 2048 (0 : Nat)).foldl crcByte 889273536 = 655058539 :=
  (crcBytesF_eq _ _).symm.trans (by decide)

theorem crcZeroChunk5 :
    (List.replicate 2048 (0 : Nat)).foldl crcByte 655058539 = 3638698341 :=
  (crcBytesF_eq _ _).symm.trans (by decide)

theorem crcZeroChunk6 :
    (List.replicate 2048 (0 : Nat)).foldl crcByte 3638698341 = 1977251091 :=
  (crcBytesF_eq _ _).symm.trans (by decide)

theorem crcZeroChunk7 :
    (List.replicate 2048 (0 : Nat)).foldl crcByte 1977251091 = 258413747 :=
  (crcBytesF_eq _ _).symm.trans (by decide)

theorem crcZeroChunk8 :
    (List.replicate 2048 (0 : Nat)).foldl crcByte 258413747 = 1420504441 :=
  (crcBytesF_eq _ _).symm.trans (by decide)

/-- CRC-32 of 16384 zero bytes (the full conventional 128 x 128 entry array). -/
theorem crc32_zeros_16384 : crc32 (List.replicate 16384 0) = 2874462854 := by
  rw [crc32,
    show (16384 : Nat) = 2048 + 14336 from rfl, crc_foldl_split, crcZeroChunk1,
    show (14336 : Nat) = 2048 + 12288 from rfl, crc_foldl_split, crcZeroChunk2,
    show (12288 : Nat) = 2048 + 10240 from rfl, crc_foldl_split, crcZeroChunk3,
    show (10240 : Nat) = 2048 + 8192 from rfl, crc_foldl_split, crcZeroChunk4,
    show (8192 : Nat) = 2048 + 6144 from rfl, crc_foldl_split, crcZeroChunk5,
    show (6144 : Nat) = 2048 + 4096 from rfl, crc_foldl_split, crcZeroChunk6,
    show (4096 : Nat) = 2048 + 2048 from rfl, crc_foldl_split, crcZeroChunk7,
    crcZeroChunk8]
  decide

theorem crc_zeros_512_state :
    (List.replicate 512 (0 : Nat)).foldl crcByte 4294967295 = 1297451655 :=
  (crcBytesF_eq _ _).symm.trans (by decide)

/-- CRC-32 of 512 zero bytes (an entry array of 4 slots of 128 bytes). -/
theorem crc32_zeros_512 : crc32 (List.replicate 512 0) = 2997515640 := by
  rw [crc32, crc_zeros_512_state]
  decide

/-! ## Data model (GPTHeader / GPT partition entry structures of the Go sources) -/

/-- The first 92 bytes of a GPT header, as in the Go GPTHeader structure
(identical in all four sources). Byte fields are lists of byte values. -/
structure GPTHeader where
  Signature : List Nat
  Revision : Nat
  HeaderSize : Nat
  HeaderCRC32 : Nat
  Reserved : Nat
  CurrentLBA : Nat
  BackupLBA : Nat
  FirstUsableLBA : Nat
  LastUsableLBA : Nat
  DiskGUID : List Nat
  PartitionTableLBA : Nat
  NumPartitions : Nat
  PartitionEntrySize : Nat
  PartitionTableCRC : Nat
deriving DecidableEq, Repr

/-- A 128-byte GPT partition entry, as in the Go GPTPartition / GPTEntry
structures. In variant 1 the relocation loop manipulates the raw bytes of
each table slot at offsets 32..40 (start LBA) and 40..48 (end LBA); this
record models one decoded slot. -/
structure GPTPartition where
  TypeGUID : List Nat
  PartitionGUID : List Nat
  StartLBA : Nat
  EndLBA : Nat
  Attributes : Nat
  Name : List Nat
deriving DecidableEq, Repr

/-- An all-zero partition entry (the canonical empty slot). -/
def zeroEntry : GPTPartition :=
  { TypeGUID := List.replicate 16 0
    PartitionGUID := List.replicate 16 0
    StartLBA := 0
    EndLBA := 0
    Attributes := 0
    Name := List.replicate 72 0 }

/-! ## Binary codec (little-endian, fixed offsets, as binary.Read/Write) -/

/-- Read a k-byte little-endian integer starting at a byte offset. -/
def readLE (l : List Nat) : Nat → Nat → Nat
  | _, 0 => 0
  | off, k + 1 => l.getD off 0 % 256 + 256 * readLE l (off + 1) k

/-- Serialize a value as k little-endian bytes. -/
def le (k v : Nat) : List Nat :=
  (List.range k).map (fun i => v / 256 ^ i % 256)

/-- Normalize a raw byte field to exactly n bytes (zero padded). -/
def fixBytes (n : Nat) (l : List Nat) : List Nat :=
  (List.range n).map (fun i => l.getD i 0 % 256)

/-- The ASCII bytes of the required GPT signature. -/
def efiPart : List Nat := [0x45, 0x46, 0x49, 0x20, 0x50, 0x41, 0x52, 0x54]

/-- Decode the 92-byte GPT header from a raw buffer, as binary.Read with the
Go GPTHeader structure does (little-endian, fixed offsets; fails only when
the buffer is shorter than the 92-byte structure). -/
def decodeHeader (buf : List Nat) : Option GPTHeader :=
  if buf.length < 92 then none
  else some
    { Signature := (buf.take 8).map (fun b => b % 256)
      Revision := readLE buf 8 4
      HeaderSize := readLE buf 12 4
      HeaderCRC32 := readLE buf 16 4
      Reserved := readLE buf 20 4
      CurrentLBA := readLE buf 24 8
      BackupLBA := readLE buf 32 8
      FirstUsableLBA := readLE buf 40 8
      LastUsableLBA := readLE buf 48 8
      DiskGUID := ((buf.drop 56).take 16).map (fun b => b % 256)
      PartitionTableLBA := readLE buf 72 8
      NumPartitions := readLE buf 80 4
      PartitionEntrySize := readLE buf 84 4
      PartitionTableCRC := readLE buf 88 4 }

/-- Serialize a GPT header to its 92 bytes, as binary.Write does. -/
def encodeHeader (h : GPTHeader) : List Nat :=
  fixBytes 8 h.Signature ++ le 4 h.Revision ++ le 4 h.HeaderSize ++
  le 4 h.HeaderCRC32 ++ le 4 h.Reserved ++ le 8 h.CurrentLBA ++
  le 8 h.BackupLBA ++ le 8 h.FirstUsableLBA ++ le 8 h.LastUsableLBA ++
  fixBytes 16 h.DiskGUID ++ le 8 h.PartitionTableLBA ++
  le 4 h.NumPartitions ++ le 4 h.PartitionEntrySize ++ le 4 h.PartitionTableCRC

/-- Serialize a 128-byte partition entry, as binary.Write does on the
Go GPTPartition structure. -/
def encodeEntry (e : GPTPartition) : List Nat :=
  fixBytes 16 e.TypeGUID ++ fixBytes 16 e.PartitionGUID ++ le 8 e.StartLBA ++
  le 8 e.EndLBA ++ le 8 e.Attributes ++ fixBytes 72 e.Name

theorem encodeHeader_length (h : GPTHeader) : (encodeHeader h).length = 92 := by
  simp [encodeHeader, fixBytes, le]

theorem encodeEntry_length (e : GPTPartition) : (encodeEntry e).length = 128 := by
  simp [encodeEntry, fixBytes, le]

/-- Go byteBuffer semantics in variant 2: binary.Write copies the serialized
bytes into a freshly zeroed buffer of the given size, silently truncating or
leaving the zero padding (byteBuffer.Write never reports an error). -/
def writeInto (size : Nat) (src : List Nat) : List Nat :=
  src.take size ++ List.replicate (size - src.length) 0

/-! ## Relocation engine

Both repair variants walk the table slots in stored order keeping a cursor
(v1: curStart, starting at FirstUsableLBA; v2: nextFreeSector, starting at 34)
and, for every slot they do not skip, set
  size     = oldEnd - oldStart + 1
  newStart = cursor
  newEnd   = cursor + size - 1
  cursor   = newEnd + 1
in uint64 arithmetic.  The two variants differ only in the skip test:
variant 1 (bytes at slot offsets 32..48) skips when oldEnd == 0 or
oldStart == 0 and never looks at the type GUID; variant 2 skips when the
16-byte TypeGUID is all zero and never looks at the LBAs. -/

/-- One relocation step: the rewritten entry and the advanced cursor. -/
def relocOne (cur : Nat) (e : GPTPartition) : GPTPartition × Nat :=
  let size := uadd (usub e.EndLBA e.StartLBA) 1
  let newStart := cur
  let newEnd := usub (uadd newStart size) 1
  ({ e with StartLBA := newStart, EndLBA := newEnd }, uadd newEnd 1)

/-- The relocation walk, parameterized by the skip predicate of the variant
and the relocation base (initial cursor). -/
def relocAll (skip : GPTPartition → Bool) : Nat → List GPTPartition → List GPTPartition
  | _, [] => []
  | cur, e :: es =>
    if skip e then e :: relocAll skip cur es
    else (relocOne cur e).1 :: relocAll skip (relocOne cur e).2 es

/-- isZero of v2 (true when every byte of the slice is 0). -/
def isZeroBytes (l : List Nat) : Bool := l.all (fun b => b == 0)

/-- The skip test of variant 1: oldEnd == 0 or oldStart == 0 (lines 91-94). -/
def v1Skip (e : GPTPartition) : Bool := e.EndLBA == 0 || e.StartLBA == 0

/-- The skip test of variant 2: all-zero TypeGUID (lines 110-113). -/
def v2Skip (e : GPTPartition) : Bool := isZeroBytes e.TypeGUID

/-- The emptiness predicate asserted by the specification: all-zero type GUID,
or zero start LBA, or zero end LBA. -/
def specEmpty (e : GPTPartition) : Bool :=
  isZeroBytes e.TypeGUID || e.StartLBA == 0 || e.EndLBA == 0

theorem relocOne_usub (cur : Nat) (e : GPTPartition) :
    usub (relocOne cur e).1.EndLBA (relocOne cur e).1.StartLBA
      = usub e.EndLBA e.StartLBA := by
  unfold relocOne
  simp only [usub, uadd, M]
  omega

theorem relocAll_usub_size (skip : GPTPartition → Bool) (base : Nat) (es : List GPTPartition) (i : Nat)
    (hi : i < es.length)
    (hskip : skip (es.getD i zeroEntry) = false)
    (hse : (es.getD i zeroEntry).StartLBA ≤ (es.getD i zeroEntry).EndLBA)
    (hE : (es.getD i zeroEntry).EndLBA < M) :
    usub ((relocAll skip base es).getD i zeroEntry).EndLBA
        ((relocAll skip base es).getD i zeroEntry).StartLBA
      = usub (es.getD i zeroEntry).EndLBA (es.getD i zeroEntry).StartLBA := by
  induction es generalizing base i with
  | nil => simp at hi
  | cons e es ih =>
    unfold relocAll
    by_cases hs : skip e
    · rw [if_pos hs]
      cases i with
      | zero => rfl
      | succ j =>
        simp only [List.getD_cons_succ] at hskip hse hE ⊢
        exact ih base j (by simpa using hi) hskip hse hE
    · rw [if_neg hs]
      cases i with
      | zero =>
        simp only [List.getD_cons_zero] at hskip hse hE ⊢
        exact relocOne_usub base e
      | succ j =>
        simp only [List.getD_cons_succ] at hskip hse hE ⊢
        exact ih (relocOne base e).2 j (by simpa using hi) hskip hse hE

def entSize (e : GPTPartition) : Nat := e.EndLBA - e.StartLBA + 1

def sizeSum (skip : GPTPartition → Bool) : List GPTPartition → Nat
  | [] => 0
  | e :: es => (if skip e then 0 else entSize e) + sizeSum skip es

theorem entSize_pos (e : GPTPartition) : 1 ≤ entSize e := by
  unfold entSize; omega

theorem sizeSum_cons_skip (skip : GPTPartition → Bool) (e : GPTPartition)
    (es : List GPTPartition) (h : skip e = true) :
    sizeSum skip (e :: es) = sizeSum skip es := by
  show (if skip e then 0 else entSize e) + sizeSum skip es = sizeSum skip es
  rw [h]
  simp

theorem sizeSum_cons_keep (skip : GPTPartition → Bool) (e : GPTPartition)
    (es : List GPTPartition) (h : skip e = false) :
    sizeSum skip (e :: es) = entSize e + sizeSum skip es := by
  show (if skip e then 0 else entSize e) + sizeSum skip es = entSize e + sizeSum skip es
  rw [h]
  simp

theorem sizeSum_ge_one (skip : GPTPartition → Bool) (es : List GPTPartition) :
    ∀ i, i < es.length → skip (es.getD i zeroEntry) = false → 1 ≤ sizeSum skip es := by
  induction es with
  | nil => intro i hi; simp at hi
  | cons e es ih =>
    intro i hi hsk
    cases i with
    | zero =>
      simp only [List.getD_cons_zero] at hsk
      rw [sizeSum_cons_keep skip e es hsk]
      have := entSize_pos e
      omega
    | succ j =>
      simp only [List.getD_cons_succ] at hsk
      have h2 := ih j (by simpa using hi) hsk
      by_cases hs : skip e
      · rw [sizeSum_cons_skip skip e es hs]; omega
      · rw [sizeSum_cons_keep skip e es (by simpa using hs)]; omega

theorem relocOne_start (cur : Nat) (e : GPTPartition) :
    (relocOne cur e).1.StartLBA = cur := rfl

theorem relocOne_end (cur : Nat) (e : GPTPartition)
    (h1 : e.StartLBA ≤ e.EndLBA) (h2 : e.EndLBA < M) (h3 : cur + entSize e ≤ M) :
    (relocOne cur e).1.EndLBA = cur + entSize e - 1 := by
  unfold entSize at h3
  unfold relocOne entSize
  simp only [usub, uadd, M] at h2 h3 ⊢
  omega

theorem relocOne_next (cur : Nat) (e : GPTPartition)
    (h1 : e.StartLBA ≤ e.EndLBA) (h2 : e.EndLBA < M) (h3 : cur + entSize e ≤ M) :
    (relocOne cur e).2 = (cur + entSize e) % M := by
  unfold entSize at h3
  unfold relocOne entSize
  simp only [usub, uadd, M] at h2 h3 ⊢
  omega

theorem relocAll_bounds (skip : GPTPartition → Bool) (es : List GPTPartition) :
    ∀ base, (∀ e ∈ es, skip e = false → e.StartLBA ≤ e.EndLBA ∧ e.EndLBA < M) →
    base + sizeSum skip es ≤ M →
    ∀ j, j < es.length → skip (es.getD j zeroEntry) = false →
      base ≤ ((relocAll skip base es).getD j zeroEntry).StartLBA ∧
      ((relocAll skip base es).getD j zeroEntry).StartLBA
        ≤ ((relocAll skip base es).getD j zeroEntry).EndLBA ∧
      ((relocAll skip base es).getD j zeroEntry).EndLBA < base + sizeSum skip es := by
  induction es with
  | nil => intro base _ _ j hj; simp at hj
  | cons e es ih =>
    intro base Hok Hinv j hj hskipj
    have Hok' : ∀ x ∈ es, skip x = false → x.StartLBA ≤ x.EndLBA ∧ x.EndLBA < M :=
      fun x hx => Hok x (List.mem_cons_of_mem e hx)
    unfold relocAll
    by_cases hs : skip e
    · rw [if_pos hs]
      rw [sizeSum_cons_skip skip e es hs] at Hinv ⊢
      cases j with
      | zero =>
        simp only [List.getD_cons_zero] at hskipj
        exact absurd hskipj (by simp [hs])
      | succ i =>
        simp only [List.getD_cons_succ] at hskipj ⊢
        exact ih base Hok' Hinv i (by simpa using hj) hskipj
    · have hsf : skip e = false := by simpa using hs
      rw [if_neg hs]
      have he := Hok e (List.mem_cons_self e es) hsf
      rw [sizeSum_cons_keep skip e es hsf] at Hinv ⊢
      have hcur : base + entSize e ≤ M := by
        have := Nat.zero_le (sizeSum skip es); omega
      have hS := relocOne_start base e
      have hE := relocOne_end base e he.1 he.2 hcur
      have hC := relocOne_next base e he.1 he.2 hcur
      cases j with
      | zero =>
        simp only [List.getD_cons_zero]
        have h1 := entSize_pos e
        have h2 := Nat.zero_le (sizeSum skip es)
        refine ⟨by omega, by omega, by omega⟩
      | succ i =>
        simp only [List.getD_cons_succ] at hskipj ⊢
        by_cases hlt : base + entSize e < M
        · have hC2 : (relocOne base e).2 = base + entSize e := by
            rw [hC, Nat.mod_eq_of_lt hlt]
          have Hinv2 : (base + entSize e) + sizeSum skip es ≤ M := by omega
          have hres := ih (base + entSize e) Hok' Hinv2 i (by simpa using hj) hskipj
          rw [hC2]
          refine ⟨by omega, hres.2.1, by omega⟩
        · have hone := sizeSum_ge_one skip es i (by simpa using hj) hskipj
          omega

theorem relocAll_ordered (skip : GPTPartition → Bool) (es : List GPTPartition) :
    ∀ base i j, i < j → j < es.length →
    (∀ e ∈ es, skip e = false → e.StartLBA ≤ e.EndLBA ∧ e.EndLBA < M) →
    base + sizeSum skip es ≤ M →
    skip (es.getD i zeroEntry) = false →
    skip (es.getD j zeroEntry) = false →
      ((relocAll skip base es).getD i zeroEntry).StartLBA
        ≤ ((relocAll skip base es).getD i zeroEntry).EndLBA ∧
      ((relocAll skip base es).getD j zeroEntry).StartLBA
        ≤ ((relocAll skip base es).getD j zeroEntry).EndLBA ∧
      ((relocAll skip base es).getD i zeroEntry).EndLBA
        < ((relocAll skip base es).getD j zeroEntry).StartLBA := by
  induction es with
  | nil => intro base i j hij hj; simp at hj
  | cons e es ih =>
    intro base i j hij hj Hok Hinv hsi hsj
    have Hok' : ∀ x ∈ es, skip x = false → x.StartLBA ≤ x.EndLBA ∧ x.EndLBA < M :=
      fun x hx => Hok x (List.mem_cons_of_mem e hx)
    unfold relocAll
    by_cases hs : skip e
    · rw [if_pos hs]
      rw [sizeSum_cons_skip skip e es hs] at Hinv
      cases i with
      | zero =>
        simp only [List.getD_cons_zero] at hsi
        exact absurd hsi (by simp [hs])
      | succ i2 =>
        cases j with
        | zero => exact absurd hij (by omega)
        | succ j2 =>
          simp only [List.getD_cons_succ] at hsi hsj ⊢
          exact ih base i2 j2 (by omega) (by simpa using hj) Hok' Hinv hsi hsj
    · have hsf : skip e = false := by simpa using hs
      rw [if_neg hs]
      have he := Hok e (List.mem_cons_self e es) hsf
      rw [sizeSum_cons_keep skip e es hsf] at Hinv
      have hcur : base + entSize e ≤ M := by
        have := Nat.zero_le (sizeSum skip es); omega
      have hS := relocOne_start base e
      have hE := relocOne_end base e he.1 he.2 hcur
      have hC := relocOne_next base e he.1 he.2 hcur
      have hesz := entSize_pos e
      cases j with
      | zero => exact absurd hij (by omega)
      | succ j2 =>
        simp only [List.getD_cons_succ] at hsj
        by_cases hlt : base + entSize e < M
        · have hC2 : (relocOne base e).2 = base + entSize e := by
            rw [hC, Nat.mod_eq_of_lt hlt]
          have Hinv2 : (base + entSize e) + sizeSum skip es ≤ M := by omega
          cases i with
          | zero =>
            simp only [List.getD_cons_zero, List.getD_cons_succ]
            have hres := relocAll_bounds skip es (base + entSize e) Hok' Hinv2
              j2 (by simpa using hj) hsj
            rw [hC2]
            refine ⟨by omega, hres.2.1, by omega⟩
          | succ i2 =>
            simp only [List.getD_cons_succ] at hsi ⊢
            rw [hC2]
            exact ih (base + entSize e) i2 j2 (by omega) (by simpa using hj) Hok' Hinv2 hsi hsj
        · have hone := sizeSum_ge_one skip es j2 (by simpa using hj) hsj
          omega


theorem relocAll_length (skip : GPTPartition → Bool) (cur : Nat) (es : List GPTPartition) :
    (relocAll skip cur es).length = es.length := by
  induction es generalizing cur with
  | nil => rfl
  | cons e es ih =>
    unfold relocAll
    by_cases h : skip e <;> simp [h, ih]

/-! ## Geometry of the corrected layout -/

/-- Variant 1 geometry (lines 115-118 and 143): given the device sector count
and the table byte length, compute
(partSectors, backupHdrLBA, backupTableLBA, LastUsableLBA) as
  partSectors    = (tableBytes + 511) / 512
  backupHdrLBA   = totalSectors - 1
  backupTableLBA = backupHdrLBA - partSectors
  LastUsableLBA  = backupHdrLBA - partSectors - 1. -/
def v1Geometry (totalSectors tableBytes : Nat) : Nat × Nat × Nat × Nat :=
  let partSectors := (tableBytes + 512 - 1) / 512
  let backupHdrLBA := usub totalSectors 1
  let backupTableLBA := usub backupHdrLBA partSectors
  let lastUsable := usub (usub backupHdrLBA partSectors) 1
  (partSectors, backupHdrLBA, backupTableLBA, lastUsable)

/-- Variant 2 geometry (lines 67, 88-89 and 173): given the file size in
bytes, compute (BackupLBA, LastUsableLBA, backup PartitionTableLBA) as
  lastSector              = fileSize / 512 - 1
  BackupLBA               = lastSector
  LastUsableLBA           = lastSector - 33
  backup PartitionTableLBA = BackupLBA - 33. -/
def v2Geometry (fileSize : Nat) : Nat × Nat × Nat :=
  let lastSector := usub (fileSize / 512) 1
  (lastSector, usub lastSector 33, usub lastSector 33)

/-! ## Whole-run write traces

Each repair variant is embedded as a function from the device size and the
raw sector-1 bytes to the ordered list of (byte offset, byte length) pairs of
the writes a successful run performs, with `none` for the error exits taken
before any write.  Variant 1 (lines 52-54, 60-66, 74-77, 107, 136, 145, 172)
checks the sector multiple and the table bounds, never checks the signature,
and writes: primary entry array, primary header, backup entry array, backup
header.  Variant 2 (lines 76-85, 148-204) checks the signature, then writes:
primary header (92 bytes), the 128 primary entries one by one, backup header
(92 bytes), the 128 backup entries one by one. -/

def v1Run (fileSize : Nat) (hdrBuf : List Nat) : Option (List (Nat × Nat)) :=
  if fileSize % 512 ≠ 0 then none
  else
    match decodeHeader hdrBuf with
    | none => none
    | some primary =>
      let totalSectors := fileSize / 512
      let tableBytes := primary.NumPartitions * primary.PartitionEntrySize
      let primTableOff := primary.PartitionTableLBA * 512
      if primTableOff + tableBytes > fileSize then none
      else
        let g := v1Geometry totalSectors tableBytes
        some [(primTableOff, tableBytes), (512, primary.HeaderSize),
              (g.2.2.1 * 512, tableBytes), (g.2.1 * 512, primary.HeaderSize)]

def v2Run (fileSize : Nat) (hdrBuf : List Nat) : Option (List (Nat × Nat)) :=
  match decodeHeader hdrBuf with
  | none => none
  | some g0 =>
    if g0.Signature = efiPart then
      let lastSector := usub (fileSize / 512) 1
      let primWrites := (List.range 128).map (fun i => (g0.PartitionTableLBA * 512 + 128 * i, 128))
      let backupPT := usub lastSector 33
      let backupWrites := (List.range 128).map (fun i => (backupPT * 512 + 128 * i, 128))
      some ((512, 92) :: primWrites ++ (lastSector * 512, 92) :: backupWrites)
    else none

/-! ## Backup header derivation (variant 2, lines 169-182) -/

/-- Derive the backup header from the corrected primary header: copy every
field, swap CurrentLBA and BackupLBA, point PartitionTableLBA at
BackupLBA - 33, and recompute HeaderCRC32 over the serialization (with the
checksum field zeroed) into a HeaderSize-byte buffer. -/
def mkBackupHeader (g : GPTHeader) : GPTHeader :=
  let b := { g with
    CurrentLBA := g.BackupLBA
    BackupLBA := g.CurrentLBA
    PartitionTableLBA := usub g.BackupLBA 33
    HeaderCRC32 := 0 }
  { b with HeaderCRC32 := crc32 (writeInto b.HeaderSize (encodeHeader b)) }

/-! ## Table buffers and table CRCs -/

/-- Variant 1 (lines 69-80, 111): the primary entry array is read as
NumPartitions * PartitionEntrySize raw bytes starting at
PartitionTableLBA * 512, and the table CRC is the CRC-32 of that buffer. -/
def v1TableBuf (disk : List Nat) (off n : Nat) : List Nat :=
  (disk.drop off).take n ++ List.replicate (n - (disk.drop off).length) 0

/-- Variant 2 (lines 127-136): the table CRC input is always the 128 slots
of 128 serialized bytes each, independent of the header fields. -/
def v2TableBytes : List GPTPartition → List Nat
  | [] => []
  | p :: ps => encodeEntry p ++ v2TableBytes ps

def v2TableCRC (ps : List GPTPartition) : Nat := crc32 (v2TableBytes ps)

/-! ## Header CRC recomputation in the inspection path
(all_gpt_info.go lines 224-230 and unnamed/part_000 lines 61-68) -/

/-- The buffer the inspection path feeds to CRC-32: a copy of the first
HeaderSize bytes of the one-sector header buffer with bytes 16..20 zeroed.
Slicing hdrBuf[:HeaderSize] is out of bounds when HeaderSize exceeds the
buffer length (512), and the zeroing loop indexes 16..19 of a HeaderSize-byte
buffer, out of bounds when HeaderSize < 20; both abort the run. -/
def zero16to20 (l : List Nat) : List Nat :=
  (((l.set 16 0).set 17 0).set 18 0).set 19 0

def hdrForCRCBytes (hs : Nat) (hdrBuf : List Nat) : Option (List Nat) :=
  if hs > hdrBuf.length then none
  else if hs < 20 then none
  else some (zero16to20 (hdrBuf.take hs))

def calcHdrCRC (hs : Nat) (hdrBuf : List Nat) : Option Nat :=
  (hdrForCRCBytes hs hdrBuf).map crc32


/-! ## Concrete fixtures used by witnesses and counterexamples -/

/-- A well-formed primary header for a 1 GiB (2,097,152-sector) image. -/
def goodHeader : GPTHeader :=
  { Signature := efiPart
    Revision := 65536
    HeaderSize := 92
    HeaderCRC32 := 0
    Reserved := 0
    CurrentLBA := 1
    BackupLBA := 2097151
    FirstUsableLBA := 34
    LastUsableLBA := 2097118
    DiskGUID := List.replicate 16 0
    PartitionTableLBA := 2
    NumPartitions := 128
    PartitionEntrySize := 128
    PartitionTableCRC := 0 }

/-- The raw sector-1 bytes of goodHeader (92 encoded bytes, zero padded). -/
def goodBuf : List Nat := encodeHeader goodHeader ++ List.replicate 420 0

/-- goodHeader with an all-zero signature field. -/
def badSigHeader : GPTHeader := { goodHeader with Signature := List.replicate 8 0 }

def badSigBuf : List Nat := encodeHeader badSigHeader ++ List.replicate 420 0

/-- goodHeader declaring only 4 table slots. -/
def smallHeader : GPTHeader := { goodHeader with NumPartitions := 4 }

/-- Entry with all-zero TypeGUID but nonzero LBAs (empty per the spec,
relocated by variant 1). -/
def emptyTypeEntry : GPTPartition := { zeroEntry with StartLBA := 5, EndLBA := 9 }

/-- Entry with nonzero TypeGUID but zero start LBA (empty per the spec,
relocated by variant 2). -/
def zeroStartEntry : GPTPartition :=
  { zeroEntry with TypeGUID := 1 :: List.replicate 15 0, StartLBA := 0, EndLBA := 9 }

/-- A thoroughly non-empty 10-sector entry. -/
def keepEntry : GPTPartition :=
  { zeroEntry with TypeGUID := 1 :: List.replicate 15 0, StartLBA := 40, EndLBA := 49 }

/-- A second non-empty entry, 7 sectors. -/
def keepEntry2 : GPTPartition :=
  { zeroEntry with TypeGUID := 2 :: List.replicate 15 0, StartLBA := 200, EndLBA := 206 }

/-- A non-empty entry whose length is within one sector of 2^64. -/
def hugeEntry : GPTPartition :=
  { zeroEntry with TypeGUID := 1 :: List.replicate 15 0, StartLBA := 1, EndLBA := M - 34 }

/-- A non-empty 100-sector entry. -/
def smallEntry : GPTPartition :=
  { zeroEntry with TypeGUID := 1 :: List.replicate 15 0, StartLBA := 3, EndLBA := 102 }

/-! ## Claims -/

/-- C1: the spec scenario asserts table_sectors=32, backup_lba=2097151,
backup_table_lba=2097119, last_usable_lba=2097118 for a 2,097,152-sector
device with a 128 x 128 table.  Variant 1 computes exactly these values, but
variant 2 places the backup table at backup_lba - 33 = 2097118 (not 2097119),
while agreeing on backup_lba = 2097151 and last_usable_lba = 2097118. -/
theorem C1_geometry_amended :
    v1Geometry 2097152 (128 * 128) = (32, 2097151, 2097119, 2097118) ∧
    v2Geometry (2097152 * 512) = (2097151, 2097118, 2097118) := by decide

/-- C1 counterexample: on the 2,097,152-sector device of the claim, variant 2
computes a backup table LBA of 2097118, not the claimed 2097119. -/
theorem C1_geometry_cex :
    (v2Geometry (2097152 * 512)).2.2 = 2097118 ∧ (2097118 : Nat) ≠ 2097119 := by decide

/-- C2 (amended): relocation skips an entry (leaving it unmodified and the
cursor unchanged) exactly by the test of its own variant: variant 1 skips when
end_lba = 0 or start_lba = 0 and never consults the type GUID; variant 2
skips when the TypeGUID is all zero and never consults the LBAs.  Every
non-skipped entry is assigned start = cursor and advances the cursor. -/
theorem C2_skip_rule_amended (cur : Nat) (e : GPTPartition) (es : List GPTPartition) :
    ((e.EndLBA = 0 ∨ e.StartLBA = 0) →
      relocAll v1Skip cur (e :: es) = e :: relocAll v1Skip cur es) ∧
    (¬(e.EndLBA = 0 ∨ e.StartLBA = 0) →
      relocAll v1Skip cur (e :: es)
          = (relocOne cur e).1 :: relocAll v1Skip (relocOne cur e).2 es ∧
        (relocOne cur e).1.StartLBA = cur) ∧
    (isZeroBytes e.TypeGUID = true →
      relocAll v2Skip cur (e :: es) = e :: relocAll v2Skip cur es) ∧
    (isZeroBytes e.TypeGUID = false →
      relocAll v2Skip cur (e :: es)
          = (relocOne cur e).1 :: relocAll v2Skip (relocOne cur e).2 es ∧
        (relocOne cur e).1.StartLBA = cur) := by
  refine ⟨?_, ?_, ?_, ?_⟩
  · intro h
    have hv : v1Skip e = true := by
      rcases h with h | h <;> simp [v1Skip, h]
    rw [relocAll, if_pos hv]
  · intro h
    push_neg at h
    have hv : v1Skip e = false := by
      simp [v1Skip]
      omega
    constructor
    · rw [relocAll, if_neg (by simp [hv])]
    · exact relocOne_start cur e
  · intro h
    have hv : v2Skip e = true := by simp [v2Skip, h]
    rw [relocAll, if_pos hv]
  · intro h
    have hv : v2Skip e = false := by simp [v2Skip, h]
    constructor
    · rw [relocAll, if_neg (by simp [hv])]
    · exact relocOne_start cur e

/-- C2 witness: all four branches of the amended skip rule at concrete
entries and cursor 50. -/
theorem C2_skip_rule_witness :
    relocAll v1Skip 50 [zeroStartEntry] = zeroStartEntry :: relocAll v1Skip 50 [] ∧
    (relocAll v1Skip 50 [emptyTypeEntry]
        = (relocOne 50 emptyTypeEntry).1 :: relocAll v1Skip (relocOne 50 emptyTypeEntry).2 []
      ∧ (relocOne 50 emptyTypeEntry).1.StartLBA = 50) ∧
    relocAll v2Skip 50 [emptyTypeEntry] = emptyTypeEntry :: relocAll v2Skip 50 [] ∧
    (relocAll v2Skip 50 [zeroStartEntry]
        = (relocOne 50 zeroStartEntry).1 :: relocAll v2Skip (relocOne 50 zeroStartEntry).2 []
      ∧ (relocOne 50 zeroStartEntry).1.StartLBA = 50) :=
  ⟨(C2_skip_rule_amended 50 zeroStartEntry []).1 (by decide),
   (C2_skip_rule_amended 50 emptyTypeEntry []).2.1 (by decide),
   (C2_skip_rule_amended 50 emptyTypeEntry []).2.2.1 (by decide),
   (C2_skip_rule_amended 50 zeroStartEntry []).2.2.2 (by decide)⟩

/-- C2 counterexample: the claimed skip-iff-empty rule fails on the code.
emptyTypeEntry is empty per the spec predicate (all-zero type GUID), yet
variant 1 relocates it (its start becomes the cursor 100); zeroStartEntry is
empty per the spec predicate (start_lba = 0), yet variant 2 relocates it. -/
theorem C2_skip_rule_cex :
    specEmpty emptyTypeEntry = true ∧
    relocAll v1Skip 100 [emptyTypeEntry] ≠ [emptyTypeEntry] ∧
    ((relocAll v1Skip 100 [emptyTypeEntry]).getD 0 zeroEntry).StartLBA = 100 ∧
    specEmpty zeroStartEntry = true ∧
    relocAll v2Skip 100 [zeroStartEntry] ≠ [zeroStartEntry] ∧
    ((relocAll v2Skip 100 [zeroStartEntry]).getD 0 zeroEntry).StartLBA = 100 := by
  refine ⟨by decide, by decide, by decide, by decide, by decide, by decide⟩

/-- C3: relocation preserves partition size.  For every relocation policy
(any skip predicate, any base cursor) and every non-skipped entry with
start_lba ≤ end_lba < 2^64, the relocated entry satisfies
new_end - new_start = old_end - old_start (uint64 subtraction on the left,
exact subtraction on the right). -/
theorem C3_reloc_size_preserved (skip : GPTPartition → Bool) (base : Nat)
    (es : List GPTPartition) (i : Nat) (hi : i < es.length)
    (hskip : skip (es.getD i zeroEntry) = false)
    (hse : (es.getD i zeroEntry).StartLBA ≤ (es.getD i zeroEntry).EndLBA)
    (hE : (es.getD i zeroEntry).EndLBA < M) :
    usub ((relocAll skip base es).getD i zeroEntry).EndLBA
        ((relocAll skip base es).getD i zeroEntry).StartLBA
      = (es.getD i zeroEntry).EndLBA - (es.getD i zeroEntry).StartLBA :=
  (relocAll_usub_size skip base es i hi hskip hse hE).trans (usub_eq_sub _ _ hse hE)

/-- C3 witness: the 10-sector keepEntry relocated from base 34 by the
variant-2 policy keeps its size. -/
theorem C3_reloc_size_preserved_witness :
    v2Skip (([keepEntry].getD 0 zeroEntry)) = false ∧
    ([keepEntry].getD 0 zeroEntry).StartLBA ≤ ([keepEntry].getD 0 zeroEntry).EndLBA ∧
    usub ((relocAll v2Skip 34 [keepEntry]).getD 0 zeroEntry).EndLBA
        ((relocAll v2Skip 34 [keepEntry]).getD 0 zeroEntry).StartLBA
      = ([keepEntry].getD 0 zeroEntry).EndLBA - ([keepEntry].getD 0 zeroEntry).StartLBA :=
  ⟨by decide, by decide,
   C3_reloc_size_preserved v2Skip 34 [keepEntry] 0 (by decide) (by decide) (by decide)
     (by decide)⟩


/-- C4 (amended): relocation preserves order and disjointness provided the
relocation does not wrap around 2^64: if every non-skipped entry satisfies
start_lba ≤ end_lba < 2^64 and base + (total relocated size) ≤ 2^64, then for
any two non-skipped slots i < j the relocated ranges are proper, the range of
slot i ends strictly before the range of slot j begins, and the two ranges
are disjoint.  Without the no-wrap bound the property fails (see the
counterexample). -/
theorem C4_reloc_order_disjoint (skip : GPTPartition → Bool) (base : Nat)
    (es : List GPTPartition) (i j : Nat) (hij : i < j) (hj : j < es.length)
    (Hok : ∀ e ∈ es, skip e = false → e.StartLBA ≤ e.EndLBA ∧ e.EndLBA < M)
    (Hinv : base + sizeSum skip es ≤ M)
    (hsi : skip (es.getD i zeroEntry) = false)
    (hsj : skip (es.getD j zeroEntry) = false) :
    ((relocAll skip base es).getD i zeroEntry).StartLBA
        ≤ ((relocAll skip base es).getD i zeroEntry).EndLBA ∧
    ((relocAll skip base es).getD j zeroEntry).StartLBA
        ≤ ((relocAll skip base es).getD j zeroEntry).EndLBA ∧
    ((relocAll skip base es).getD i zeroEntry).EndLBA
        < ((relocAll skip base es).getD j zeroEntry).StartLBA ∧
    ∀ k, ¬(((relocAll skip base es).getD i zeroEntry).StartLBA ≤ k ∧
            k ≤ ((relocAll skip base es).getD i zeroEntry).EndLBA ∧
            ((relocAll skip base es).getD j zeroEntry).StartLBA ≤ k ∧
            k ≤ ((relocAll skip base es).getD j zeroEntry).EndLBA) := by
  obtain ⟨h1, h2, h3⟩ := relocAll_ordered skip es base i j hij hj Hok Hinv hsi hsj
  exact ⟨h1, h2, h3, fun k hk => by omega⟩

/-- C4 witness: two non-empty entries relocated from base 34 by the
variant-2 policy end up ordered and disjoint. -/
theorem C4_reloc_order_disjoint_witness :
    v2Skip ([keepEntry, keepEntry2].getD 0 zeroEntry) = false ∧
    v2Skip ([keepEntry, keepEntry2].getD 1 zeroEntry) = false ∧
    34 + sizeSum v2Skip [keepEntry, keepEntry2] ≤ M ∧
    (((relocAll v2Skip 34 [keepEntry, keepEntry2]).getD 0 zeroEntry).StartLBA
        ≤ ((relocAll v2Skip 34 [keepEntry, keepEntry2]).getD 0 zeroEntry).EndLBA ∧
      ((relocAll v2Skip 34 [keepEntry, keepEntry2]).getD 1 zeroEntry).StartLBA
        ≤ ((relocAll v2Skip 34 [keepEntry, keepEntry2]).getD 1 zeroEntry).EndLBA ∧
      ((relocAll v2Skip 34 [keepEntry, keepEntry2]).getD 0 zeroEntry).EndLBA
        < ((relocAll v2Skip 34 [keepEntry, keepEntry2]).getD 1 zeroEntry).StartLBA ∧
      ∀ k, ¬(((relocAll v2Skip 34 [keepEntry, keepEntry2]).getD 0 zeroEntry).StartLBA ≤ k ∧
              k ≤ ((relocAll v2Skip 34 [keepEntry, keepEntry2]).getD 0 zeroEntry).EndLBA ∧
              ((relocAll v2Skip 34 [keepEntry, keepEntry2]).getD 1 zeroEntry).StartLBA ≤ k ∧
              k ≤ ((relocAll v2Skip 34 [keepEntry, keepEntry2]).getD 1 zeroEntry).EndLBA)) :=
  ⟨by decide, by decide, by decide,
   C4_reloc_order_disjoint v2Skip 34 [keepEntry, keepEntry2] 0 1 (by decide) (by decide)
     (by decide) (by decide) (by decide) (by decide)⟩

/-- C4 counterexample: the claim as stated (requiring only that the two
entries be non-empty with start ≤ end) fails on the code: with a first entry
of length 2^64 - 34 sectors, the variant-2 relocation from base 34 wraps, the
second relocated range [0, 99] overlaps the first relocated range
[34, 2^64 - 1] (both contain sector 34), and the first range ends after the
second begins. -/
theorem C4_reloc_order_cex :
    specEmpty hugeEntry = false ∧ specEmpty smallEntry = false ∧
    v2Skip hugeEntry = false ∧ v2Skip smallEntry = false ∧
    hugeEntry.StartLBA ≤ hugeEntry.EndLBA ∧ smallEntry.StartLBA ≤ smallEntry.EndLBA ∧
    ((relocAll v2Skip 34 [hugeEntry, smallEntry]).getD 0 zeroEntry).StartLBA = 34 ∧
    ((relocAll v2Skip 34 [hugeEntry, smallEntry]).getD 0 zeroEntry).EndLBA = M - 1 ∧
    ((relocAll v2Skip 34 [hugeEntry, smallEntry]).getD 1 zeroEntry).StartLBA = 0 ∧
    ((relocAll v2Skip 34 [hugeEntry, smallEntry]).getD 1 zeroEntry).EndLBA = 99 ∧
    ¬(((relocAll v2Skip 34 [hugeEntry, smallEntry]).getD 0 zeroEntry).EndLBA
        ≤ ((relocAll v2Skip 34 [hugeEntry, smallEntry]).getD 1 zeroEntry).StartLBA) ∧
    (((relocAll v2Skip 34 [hugeEntry, smallEntry]).getD 0 zeroEntry).StartLBA ≤ 34 ∧
      34 ≤ ((relocAll v2Skip 34 [hugeEntry, smallEntry]).getD 0 zeroEntry).EndLBA ∧
      ((relocAll v2Skip 34 [hugeEntry, smallEntry]).getD 1 zeroEntry).StartLBA ≤ 34 ∧
      34 ≤ ((relocAll v2Skip 34 [hugeEntry, smallEntry]).getD 1 zeroEntry).EndLBA) := by
  refine ⟨by decide, by decide, by decide, by decide, by decide, by decide, by decide,
    by decide, by decide, by decide, by decide, by decide, by decide, by decide, by decide⟩

/-- C5: the derived backup header (variant 2, lines 169-182) agrees with the
corrected primary header on every field other than CurrentLBA, BackupLBA,
PartitionTableLBA and HeaderCRC32; in particular it keeps DiskGUID and
PartitionTableCRC, and its CurrentLBA is the BackupLBA of the primary. -/
theorem C5_backup_mirrors_primary (g : GPTHeader) :
    (mkBackupHeader g).Signature = g.Signature ∧
    (mkBackupHeader g).Revision = g.Revision ∧
    (mkBackupHeader g).HeaderSize = g.HeaderSize ∧
    (mkBackupHeader g).Reserved = g.Reserved ∧
    (mkBackupHeader g).FirstUsableLBA = g.FirstUsableLBA ∧
    (mkBackupHeader g).LastUsableLBA = g.LastUsableLBA ∧
    (mkBackupHeader g).DiskGUID = g.DiskGUID ∧
    (mkBackupHeader g).NumPartitions = g.NumPartitions ∧
    (mkBackupHeader g).PartitionEntrySize = g.PartitionEntrySize ∧
    (mkBackupHeader g).PartitionTableCRC = g.PartitionTableCRC ∧
    (mkBackupHeader g).CurrentLBA = g.BackupLBA :=
  ⟨rfl, rfl, rfl, rfl, rfl, rfl, rfl, rfl, rfl, rfl, rfl⟩


/-! ## Helper lemmas for the table-CRC and header-CRC claims -/

theorem encodeEntry_zero : encodeEntry zeroEntry = List.replicate 128 0 := by decide

theorem v2TableBytes_zero (n : Nat) :
    v2TableBytes (List.replicate n zeroEntry) = List.replicate (128 * n) 0 := by
  induction n with
  | zero => rfl
  | succ k ih =>
    rw [List.replicate_succ]
    show encodeEntry zeroEntry ++ v2TableBytes (List.replicate k zeroEntry) = _
    rw [encodeEntry_zero, ih, ← List.replicate_add]
    congr 1
    ring

theorem v2TableBytes_length (ps : List GPTPartition) :
    (v2TableBytes ps).length = 128 * ps.length := by
  induction ps with
  | nil => rfl
  | cons p ps ih =>
    show (encodeEntry p ++ v2TableBytes ps).length = _
    rw [List.length_append, encodeEntry_length, ih, List.length_cons]
    ring

theorem v1Run_eq (fs : Nat) (buf : List Nat) (h : GPTHeader)
    (hdec : decodeHeader buf = some h) :
    v1Run fs buf =
      if fs % 512 ≠ 0 then none
      else if h.PartitionTableLBA * 512 + h.NumPartitions * h.PartitionEntrySize > fs then none
      else some [(h.PartitionTableLBA * 512, h.NumPartitions * h.PartitionEntrySize),
                 (512, h.HeaderSize),
                 ((v1Geometry (fs / 512) (h.NumPartitions * h.PartitionEntrySize)).2.2.1 * 512,
                   h.NumPartitions * h.PartitionEntrySize),
                 ((v1Geometry (fs / 512) (h.NumPartitions * h.PartitionEntrySize)).2.1 * 512,
                   h.HeaderSize)] := by
  unfold v1Run
  rw [hdec]

theorem v2Run_eq (fs : Nat) (buf : List Nat) (g0 : GPTHeader)
    (hdec : decodeHeader buf = some g0) :
    v2Run fs buf =
      if g0.Signature = efiPart then
        some ((512, 92)
          :: (List.range 128).map (fun i => (g0.PartitionTableLBA * 512 + 128 * i, 128))
          ++ (usub (fs / 512) 1 * 512, 92)
          :: (List.range 128).map
              (fun i => (usub (usub (fs / 512) 1) 33 * 512 + 128 * i, 128)))
      else none := by
  unfold v2Run
  rw [hdec]

theorem zero16to20_getElem (l : List Nat) (i : Nat) :
    (zero16to20 l)[i]? = if 16 ≤ i ∧ i < 20 then l[i]?.map (fun _ => 0) else l[i]? := by
  unfold zero16to20
  simp only [List.getElem?_set']
  split_ifs <;> first
    | rfl
    | omega

theorem zero16to20_congr (b1 b2 : List Nat) (hlen : b1.length = b2.length)
    (ht : b1.take 16 = b2.take 16) (hd : b1.drop 20 = b2.drop 20) :
    zero16to20 b1 = zero16to20 b2 := by
  apply List.ext_getElem?
  intro i
  rw [zero16to20_getElem, zero16to20_getElem]
  by_cases h : 16 ≤ i ∧ i < 20
  · rw [if_pos h, if_pos h]
    by_cases hlt : i < b1.length
    · rw [List.getElem?_eq_getElem hlt, List.getElem?_eq_getElem (hlen ▸ hlt)]
      rfl
    · rw [List.getElem?_eq_none (show b1.length ≤ i by omega),
        List.getElem?_eq_none (show b2.length ≤ i by omega)]
  · rw [if_neg h, if_neg h]
    by_cases hlt : i < 16
    · have e1 : b1[i]? = (b1.take 16)[i]? := (List.getElem?_take_of_lt hlt).symm
      have e2 : b2[i]? = (b2.take 16)[i]? := (List.getElem?_take_of_lt hlt).symm
      rw [e1, e2, ht]
    · have e1 : b1[i]? = (b1.drop 20)[i - 20]? := by
        rw [List.getElem?_drop]
        congr 1
        omega
      have e2 : b2[i]? = (b2.drop 20)[i - 20]? := by
        rw [List.getElem?_drop]
        congr 1
        omega
      rw [e1, e2, hd]


/-- C6 (amended): the table CRC input is variant-dependent.  Variant 1 CRCs
a buffer of exactly NumPartitions * PartitionEntrySize raw bytes read per the
header; variant 2 always serializes 128 slots of 128 bytes and CRCs 16384
bytes regardless of the header fields. -/
theorem C6_table_crc_amended (h : GPTHeader) (disk : List Nat) (ps : List GPTPartition)
    (hps : ps.length = 128) :
    (v1TableBuf disk (h.PartitionTableLBA * 512) (h.NumPartitions * h.PartitionEntrySize)).length
      = h.NumPartitions * h.PartitionEntrySize ∧
    (v2TableBytes ps).length = 16384 := by
  constructor
  · unfold v1TableBuf
    rw [List.length_append, List.length_take, List.length_replicate]
    omega
  · rw [v2TableBytes_length, hps]

/-- C6 witness: buffer lengths at the 4-slot header and a 128-slot table. -/
theorem C6_table_crc_witness :
    (List.replicate 128 zeroEntry).length = 128 ∧
    ((v1TableBuf [] (smallHeader.PartitionTableLBA * 512)
        (smallHeader.NumPartitions * smallHeader.PartitionEntrySize)).length
        = smallHeader.NumPartitions * smallHeader.PartitionEntrySize ∧
      (v2TableBytes (List.replicate 128 zeroEntry)).length = 16384) :=
  ⟨by simp, C6_table_crc_amended smallHeader [] (List.replicate 128 zeroEntry) (by simp)⟩

/-- C6 counterexample: for a header declaring 4 slots of 128 bytes, the
claim says the stored table CRC is the CRC over exactly 4 * 128 = 512 bytes,
but variant 2 stores the CRC of its fixed 16384-byte buffer: with an
all-empty table the stored value is 2874462854 (CRC of 16384 zero bytes)
while the claimed value is 2997515640 (CRC of 512 zero bytes). -/
theorem C6_table_crc_cex :
    (List.replicate 128 zeroEntry).length = 128 ∧
    smallHeader.NumPartitions * smallHeader.PartitionEntrySize = 512 ∧
    v2TableCRC (List.replicate 128 zeroEntry) = 2874462854 ∧
    crc32 (List.replicate (smallHeader.NumPartitions * smallHeader.PartitionEntrySize) 0)
      = 2997515640 ∧
    (2874462854 : Nat) ≠ 2997515640 := by
  refine ⟨by simp, by decide, ?_, ?_, by decide⟩
  · show crc32 (v2TableBytes (List.replicate 128 zeroEntry)) = 2874462854
    rw [v2TableBytes_zero, show (128 * 128 : Nat) = 16384 from rfl]
    exact crc32_zeros_16384
  · rw [show smallHeader.NumPartitions * smallHeader.PartitionEntrySize = 512 from by decide]
    exact crc32_zeros_512

/-- C7: the recomputed header CRC is the CRC-32 over exactly HeaderSize bytes
of the sector-1 buffer with the 4 stored-checksum bytes (offsets 16..20)
zeroed; hence any two buffers of equal length that agree outside those 4
bytes yield the same computed checksum. -/
theorem C7_header_crc_zeroed (hs : Nat) (b1 b2 : List Nat)
    (h20 : 20 ≤ hs) (hle : hs ≤ b1.length) (hlen : b1.length = b2.length)
    (ht : b1.take 16 = b2.take 16) (hd : b1.drop 20 = b2.drop 20) :
    calcHdrCRC hs b1 = some (crc32 (zero16to20 (b1.take hs))) ∧
    calcHdrCRC hs b1 = calcHdrCRC hs b2 := by
  have e1 : calcHdrCRC hs b1 = some (crc32 (zero16to20 (b1.take hs))) := by
    unfold calcHdrCRC hdrForCRCBytes
    rw [if_neg (by omega), if_neg (by omega)]
    rfl
  have e2 : calcHdrCRC hs b2 = some (crc32 (zero16to20 (b2.take hs))) := by
    unfold calcHdrCRC hdrForCRCBytes
    rw [if_neg (by omega), if_neg (by omega)]
    rfl
  have e3 : zero16to20 (b1.take hs) = zero16to20 (b2.take hs) := by
    apply zero16to20_congr
    · rw [List.length_take, List.length_take, hlen]
    · rw [List.take_take, List.take_take, show min 16 hs = 16 from by omega, ht]
    · rw [List.drop_take, List.drop_take, hd]
  exact ⟨e1, by rw [e1, e2, e3]⟩

/-- C7 witness: two 512-byte buffers differing only at offset 16 (inside the
stored-checksum field) produce the same recomputed CRC for HeaderSize 20. -/
theorem C7_header_crc_zeroed_witness :
    (List.replicate 512 (0 : Nat)).take 16 = ((List.replicate 512 0).set 16 7).take 16 ∧
    (List.replicate 512 (0 : Nat)).drop 20 = ((List.replicate 512 0).set 16 7).drop 20 ∧
    calcHdrCRC 20 (List.replicate 512 0)
      = some (crc32 (zero16to20 ((List.replicate 512 (0 : Nat)).take 20))) ∧
    calcHdrCRC 20 (List.replicate 512 0) = calcHdrCRC 20 ((List.replicate 512 0).set 16 7) :=
  ⟨by decide, by decide,
   (C7_header_crc_zeroed 20 (List.replicate 512 0) ((List.replicate 512 0).set 16 7)
      (by decide) (by decide) (by decide) (by decide) (by decide)).1,
   (C7_header_crc_zeroed 20 (List.replicate 512 0) ((List.replicate 512 0).set 16 7)
      (by decide) (by decide) (by decide) (by decide) (by decide)).2⟩

/-- C8 (amended): variant 2 terminates with an error before any write when
the decoded signature is not "EFI PART".  (Variant 1 performs no signature
check at all; see the counterexample.) -/
theorem C8_signature_check_amended (fs : Nat) (buf : List Nat) (h : GPTHeader)
    (hdec : decodeHeader buf = some h) (hsig : h.Signature ≠ efiPart) :
    v2Run fs buf = none := by
  rw [v2Run_eq fs buf h hdec, if_neg hsig]

/-- C8 witness: variant 2 rejects the zero-signature header. -/
theorem C8_signature_check_witness :
    decodeHeader badSigBuf = some badSigHeader ∧
    badSigHeader.Signature ≠ efiPart ∧
    v2Run (2097152 * 512) badSigBuf = none :=
  ⟨by decide, by decide,
   C8_signature_check_amended (2097152 * 512) badSigBuf badSigHeader (by decide) (by decide)⟩

/-- C8 counterexample: on the same zero-signature sector-1 bytes, variant 1
runs to completion and performs all four writes (primary table, primary
header, backup table, backup header), so a bad signature does not terminate
the run before mutation. -/
theorem C8_signature_check_cex :
    decodeHeader badSigBuf = some badSigHeader ∧
    badSigHeader.Signature ≠ efiPart ∧
    v1Run (2097152 * 512) badSigBuf
      = some [(1024, 16384), (512, 92), (2097119 * 512, 16384), (2097151 * 512, 92)] := by
  refine ⟨by decide, by decide, by decide⟩

/-- C9 (amended): the write order of a successful run is variant dependent.
Variant 1 writes primary entry array, then primary header (sector 1), then
backup entry array, then backup header.  Variant 2 writes primary header,
then the 128 primary entries, then the backup header, then the 128 backup
entries (backup header before backup table). -/
theorem C9_write_order_amended (fs : Nat) (buf : List Nat) (h : GPTHeader)
    (hdec : decodeHeader buf = some h) (hmod : fs % 512 = 0)
    (hbound : h.PartitionTableLBA * 512 + h.NumPartitions * h.PartitionEntrySize ≤ fs) :
    v1Run fs buf
      = some [(h.PartitionTableLBA * 512, h.NumPartitions * h.PartitionEntrySize),
              (512, h.HeaderSize),
              ((v1Geometry (fs / 512) (h.NumPartitions * h.PartitionEntrySize)).2.2.1 * 512,
                h.NumPartitions * h.PartitionEntrySize),
              ((v1Geometry (fs / 512) (h.NumPartitions * h.PartitionEntrySize)).2.1 * 512,
                h.HeaderSize)] ∧
    (h.Signature = efiPart →
      v2Run fs buf
        = some ((512, 92)
            :: (List.range 128).map (fun i => (h.PartitionTableLBA * 512 + 128 * i, 128))
            ++ (usub (fs / 512) 1 * 512, 92)
            :: (List.range 128).map
                (fun i => (usub (usub (fs / 512) 1) 33 * 512 + 128 * i, 128)))) := by
  constructor
  · rw [v1Run_eq fs buf h hdec, if_neg (show ¬fs % 512 ≠ 0 by omega), if_neg (by omega)]
  · intro hsig
    rw [v2Run_eq fs buf h hdec, if_pos hsig]

/-- C9 witness: the two write traces on the 1 GiB fixture, with the
geometry evaluated (variant 1: table at offset 1024 first, header second;
variant 2: backup header before the backup entries). -/
theorem C9_write_order_witness :
    decodeHeader goodBuf = some goodHeader ∧
    (2097152 * 512) % 512 = 0 ∧
    goodHeader.PartitionTableLBA * 512
        + goodHeader.NumPartitions * goodHeader.PartitionEntrySize ≤ 2097152 * 512 ∧
    v1Run (2097152 * 512) goodBuf
      = some [(1024, 16384), (512, 92), (2097119 * 512, 16384), (2097151 * 512, 92)] ∧
    v2Run (2097152 * 512) goodBuf
      = some ((512, 92)
          :: (List.range 128).map (fun i => (1024 + 128 * i, 128))
          ++ (2097151 * 512, 92)
          :: (List.range 128).map (fun i => (2097118 * 512 + 128 * i, 128))) := by
  have h := C9_write_order_amended (2097152 * 512) goodBuf goodHeader (by decide) (by decide)
    (by decide)
  exact ⟨by decide, by decide, by decide, h.1.trans (by decide), (h.2 (by decide)).trans (by decide)⟩

/-- C9 counterexample: the claimed order (header first, backup header last)
fails on both variants: the first write of variant 1 is the entry array at
byte offset 1024, not the header at 512; the last write of variant 2 is the final
backup entry slot, not the backup header at backup_lba. -/
theorem C9_write_order_cex :
    ((v1Run (2097152 * 512) goodBuf).getD []).getD 0 (0, 0) = (1024, 16384) ∧
    (1024 : Nat) ≠ 512 ∧
    ((v2Run (2097152 * 512) goodBuf).getD []).getLast?
      = some (2097118 * 512 + 128 * 127, 128) ∧
    2097118 * 512 + 128 * 127 ≠ 2097151 * 512 := by
  refine ⟨by decide, by decide, by decide, by decide⟩

/-- C10: recomputing the header CRC in the inspection path reaches the
out-of-bounds error whenever the decoded HeaderSize exceeds the 512-byte
sector buffer: the CRC buffer is built by slicing the one-sector buffer up
to HeaderSize, so the computation returns no value for any HeaderSize above
512. -/
theorem C10_crc_oob (hs : Nat) (buf : List Nat) (hlen : buf.length = 512)
    (hbig : 512 < hs) :
    calcHdrCRC hs buf = none := by
  unfold calcHdrCRC hdrForCRCBytes
  rw [if_pos (by omega)]
  rfl

/-- C10 witness: HeaderSize 1000 against a 512-byte sector buffer. -/
theorem C10_crc_oob_witness :
    (List.replicate 512 (0 : Nat)).length = 512 ∧ 512 < 1000 ∧
    calcHdrCRC 1000 (List.replicate 512 0) = none :=
  ⟨by simp, by decide, C10_crc_oob 1000 (List.replicate 512 0) (by simp) (by decide)⟩

end GPTRepair
